import Mathlib

/-!
# Search-Music (`app.js`): signal quality, confidence, recognition and search

A shallow embedding of the browser front-end `app.js`.

* JavaScript numbers are modelled by exact rationals `ℚ`.
* JavaScript built-ins that the program calls but does not define
  (`Math.sqrt`, `encodeURIComponent`, `String.prototype.replace`,
  `String.prototype.trim`) are parameters of the functions that call them.
* Values that may be `null`/`undefined` are `Option`s; a thrown exception or a
  rejected promise is `Except.error`.
* The DOM and the browser window are an explicit record that is passed
  through every function with a visible effect.
-/

namespace SearchMusic

/-! ## Signal quality and confidence (app.js 95-151) -/

/-- `Math.round`: the nearest integer, halves rounded up. -/
def mathRound (x : ℚ) : Int := Int.floor (x + 1 / 2)

/-- `estimateSignalQuality` (app.js 130-137); `rmsSamples` is
`state.media.rmsSamples`. -/
def estimateSignalQuality (rmsSamples : List ℚ) : ℚ :=
  if rmsSamples.length = 0 then 0
  else
    let avg := rmsSamples.foldl (fun a b => a + b) 0 / (rmsSamples.length : ℚ)
    let quality := max 0 (min 1 ((avg - 0.02) / (0.22 - 0.02)))
    quality

/-- `combineConfidence` (app.js 140-151): the returned confidence.
`providerScore = none` is the `providerScore == null` branch (null or
undefined). The write of `Math.round(conf*100)` into `#confVal` is performed by
the caller's model, see `onRecordingStopWith`. -/
def combineConfidence (rmsSamples : List ℚ) (providerScore : Option ℚ) : ℚ :=
  let sq := estimateSignalQuality rmsSamples
  let conf :=
    match providerScore with
    | none => 0.6 * sq + 0.2
    | some p => 0.7 * p + 0.3 * sq
  max 0 (min 1 conf)

/-- The amplitude of one analyser byte: `(data[i]-128)/128` (app.js 102). -/
def amplitude (b : Nat) : ℚ := ((b : ℚ) - 128) / 128

/-- One run of the closure `sample` (app.js 97-111), without the rescheduling:
`data` is the byte frame written by `getByteTimeDomainData`, `rmsSamples` the
samples recorded so far. Returns the new sample sequence and the percentage
written into `#sqVal`. `sqrt` is `Math.sqrt`. -/
def sample (sqrt : ℚ → ℚ) (data : List Nat) (rmsSamples : List ℚ) : List ℚ × Int :=
  let sum := data.foldl (fun sum d => sum + amplitude d * amplitude d) 0
  let rms := sqrt (sum / (data.length : ℚ))
  let rmsSamples1 := rmsSamples ++ [rms]
  let sq := estimateSignalQuality rmsSamples1
  (rmsSamples1, mathRound (sq * 100))

/-- The reset of the sample sequence followed by the first, synchronous call of
`sample` in `startRecording` (app.js 95, 112). -/
def firstSample (sqrt : ℚ → ℚ) (data : List Nat) : List ℚ × Int :=
  sample sqrt data []

/-! ## Built-ins, page state and rendering (app.js 2-50) -/

/-- The JavaScript string built-ins the program calls, taken as parameters:
`encodeURIComponent(s)`, `s.replace(pattern, by)` with a string pattern (first
occurrence only) and `s.trim()`. -/
structure Js where
  encodeURIComponent : String → String
  replace : String → String → String → String
  trim : String → String

/-- Built-ins for evaluating the program on concrete inputs. They agree with
the JavaScript ones on strings of ASCII letters, digits and spaces in which a
replaced pattern occurs at most once: `encodeURIComponent` turns each space
into %20 and keeps letters and digits. -/
def jsAscii : Js :=
  { encodeURIComponent := fun s =>
      String.mk (s.data.flatMap (fun c => if c = ' ' then ['%', '2', '0'] else [c]))
    replace := fun s pattern by_ => s.replace pattern by_
    trim := fun s => s.trim }

/-- JavaScript truthiness of a string that may be missing: `undefined`, `null`
and the empty string are falsy. -/
def truthy : Option String → Bool
  | some s => s != ""
  | none => false

/-- `a || b` on strings that may be missing. -/
def orElse (a b : Option String) : Option String := if truthy a then a else b

/-- `a || null`. -/
def orNull (a : Option String) : Option String := if truthy a then a else none

/-- `a || 'literal'`. -/
def orDefault (a : Option String) (d : String) : String :=
  match a with
  | some s => if s != "" then s else d
  | none => d

/-- The messages passed to `showToast`, one constructor per call site. -/
inductive Toast
  /-- Tidak ditemukan di katalog. Mencari di Google… (app.js 64) -/
  | notInCatalog
  /-- Menampilkan n lagu untuk "term" (app.js 69) -/
  | showing (n : Nat) (term : String)
  /-- Terjadi kesalahan saat mencari. (app.js 72) -/
  | searchError
  /-- Browser tidak mendukung mikrofon. (app.js 79) -/
  | micUnsupported
  /-- Merekam… klik lagi untuk berhenti (app.js 117) -/
  | recordingStarted
  /-- Tidak bisa mengakses mikrofon. (app.js 118) -/
  | micUnavailable
  /-- Mengunggah & mengenali… (app.js 196) -/
  | uploading
  /-- Tidak terdeteksi. Mencari via Google… (app.js 209) -/
  | notDetected
  /-- Ditemukan: title — artist, with the tag for a confidence of at least
  0.88 (app.js 227-228) -/
  | found (title artist : Option String) (sure : Bool)
  deriving DecidableEq, Repr

/-- The fields of a track object that `renderTracks` reads. -/
structure Item where
  trackName : Option String := none
  title : Option String := none
  artistName : Option String := none
  artist : Option String := none
  artworkUrl100 : Option String := none
  image : Option String := none
  previewUrl : Option String := none
  collectionViewUrl : Option String := none
  deriving DecidableEq, Repr

/-- One `article.card` element: the values substituted into its template
(app.js 37-47). `preview` and `itunesHref` are `none` when the button, resp.
the link, is not emitted. -/
structure Card where
  artwork : String
  title : String
  artist : String
  youtubeHref : String
  preview : Option String
  itunesHref : Option String
  deriving DecidableEq, Repr

/-- What the program can change outside its own variables: the children of
`#results`, the visibility of `#empty`, the toasts shown, the URLs passed to
`window.open`, the URLs passed to `fetch`, the errors passed to
`console.error`, the text of `#confVal` (`none` is the dash, `some n` is n%)
and the disabled state of the search button. Lists are oldest first. -/
structure Page where
  results : List Card := []
  emptyShown : Bool := false
  toasts : List Toast := []
  opened : List String := []
  fetched : List String := []
  logged : List String := []
  confVal : Option Int := none
  loading : Bool := false
  deriving DecidableEq, Repr

/-- `showToast(msg)` (app.js 18). -/
def showToast (msg : Toast) (page : Page) : Page :=
  { page with toasts := page.toasts ++ [msg] }

/-- `window.open(url, '_blank')`. -/
def windowOpen (url : String) (page : Page) : Page :=
  { page with opened := page.opened ++ [url] }

/-- `youTubeSearchURL` (app.js 21). -/
def youTubeSearchURL (js : Js) (query : String) : String :=
  "https://www.youtube.com/results?search_query=" ++ js.encodeURIComponent query

/-- `googleSearchURL` (app.js 22). -/
def googleSearchURL (js : Js) (query : String) : String :=
  "https://www.google.com/search?q=" ++ js.encodeURIComponent query

/-- The card built by one iteration of the loop of `renderTracks`
(app.js 30-47). -/
def card (js : Js) (it : Item) : Card :=
  let title := orDefault (orElse it.trackName it.title) "Tidak diketahui"
  let artist := orDefault (orElse it.artistName it.artist) ""
  let artwork :=
    orDefault (orElse (it.artworkUrl100.map (fun s => js.replace s "100x100bb" "400x400bb")) it.image)
      "https://via.placeholder.com/400x400?text=Music"
  let preview := orNull it.previewUrl
  let ytQuery := js.trim (title ++ " " ++ artist)
  { artwork := artwork, title := title, artist := artist,
    youtubeHref := youTubeSearchURL js ytQuery,
    preview := preview, itunesHref := orNull it.collectionViewUrl }

/-- `renderTracks` (app.js 25-50). -/
def renderTracks (js : Js) (items : List Item) (page : Page) : Page :=
  let page1 := { page with results := [] }
  if items.length = 0 then { page1 with emptyShown := true }
  else
    items.foldl (fun p it => { p with results := p.results ++ [card js it] })
      { page1 with emptyShown := false }

/-! ## Text search (app.js 53-74) -/

/-- What the catalog request of `searchText` yields: `failed` when `fetch`
rejects, `res.ok` is false or `res.json()` throws; otherwise the `results`
property of the parsed body (`none` when it is missing). -/
inductive CatalogReply
  | failed (err : String)
  | data (results : Option (List Item))
  deriving DecidableEq, Repr

/-- `searchText` (app.js 53-74), with the reply of the catalog as an input. -/
def searchText (js : Js) (term : String) (reply : CatalogReply) (page : Page) : Page :=
  if term = "" then page
  else
    let url := "https://itunes.apple.com/search?term=" ++ js.encodeURIComponent term
      ++ "&entity=song&limit=12"
    let page1 := { page with loading := true, fetched := page.fetched ++ [url] }
    let page2 :=
      match reply with
      | .failed err => showToast .searchError { page1 with logged := page1.logged ++ [err] }
      | .data none =>
        renderTracks js [] (showToast .notInCatalog (windowOpen (googleSearchURL js term) page1))
      | .data (some []) =>
        renderTracks js [] (showToast .notInCatalog (windowOpen (googleSearchURL js term) page1))
      | .data (some (it :: its)) =>
        showToast (.showing (it :: its).length term) (renderTracks js (it :: its) page1)
    { page2 with loading := false }

/-! ## Recognition providers (app.js 154-191) -/

/-- The fields of `data.result` of an AudD reply that `recognizeWithAudD`
reads. `score` is `none` when the field is missing or null and otherwise a JSON
number; a score sent as a JSON string is not covered. -/
structure AuddResult where
  title : Option String := none
  artist : Option String := none
  /-- The value of `r.apple_music?.artwork?.url`. -/
  appleArtworkUrl : Option String := none
  /-- The value of `r.apple_music?.previews?.[0]?.url`. -/
  applePreviewUrl : Option String := none
  /-- The value of `r.spotify?.preview_url`. -/
  spotifyPreviewUrl : Option String := none
  /-- The value of `r.apple_music?.url`. -/
  appleUrl : Option String := none
  /-- The value of `r.youtube?.video_id`. -/
  youtubeVideoId : Option String := none
  score : Option ℚ := none
  deriving DecidableEq, Repr

/-- The normalised result object returned by a provider (app.js 173-181). -/
structure Recognition where
  title : Option String
  artist : Option String
  artwork : Option String
  previewUrl : Option String
  itunesUrl : Option String
  youtubeId : Option String
  providerScore : Option ℚ
  deriving DecidableEq, Repr

/-- What awaiting a provider yields: `error` when the promise rejects,
`ok none` for `null`, `ok (some r)` for a result. -/
abbrev Outcome := Except String (Option Recognition)

/-- One provider call: its outcome and the URLs it passed to `fetch`. -/
structure ProviderRun where
  outcome : Outcome
  requests : List String

/-- The expression `r.score ? (parseFloat(r.score)/100) : null` (app.js 180):
a number is truthy when it is not zero, and `parseFloat` of a number is that
number. -/
def providerScoreOf (score : Option ℚ) : Option ℚ :=
  match score with
  | none => none
  | some s => if s ≠ 0 then some (s / 100) else none

/-- The object literal returned by `recognizeWithAudD` (app.js 172-181). -/
def normalizeAudD (js : Js) (r : AuddResult) : Recognition :=
  { title := r.title
    artist := r.artist
    artwork := orNull (r.appleArtworkUrl.map (fun s => js.replace s "\x7bw\x7dx\x7bh\x7d" "400x400"))
    previewUrl := orNull (orElse r.applePreviewUrl r.spotifyPreviewUrl)
    itunesUrl := orNull r.appleUrl
    youtubeId := orNull r.youtubeVideoId
    providerScore := providerScoreOf r.score }

/-- `recognizeWithAudD` (app.js 154-182). `net url` is what
`(await fetch(url, ...)).json()` yields for the recording: `error` when the
fetch rejects or the body is not JSON, otherwise `data?.result` (`none` when
falsy). -/
def recognizeWithAudD (js : Js) (auddKey : String)
    (net : String → Except String (Option AuddResult)) : ProviderRun :=
  if auddKey = "" then { outcome := .ok none, requests := [] }
  else
    match net "https://api.audd.io/" with
    | .error e => { outcome := .error e, requests := ["https://api.audd.io/"] }
    | .ok (some r) =>
      { outcome := .ok (some (normalizeAudD js r)), requests := ["https://api.audd.io/"] }
    | .ok none =>
      match net "https://api.audd.io/recognize" with
      | .error e =>
        { outcome := .error e
          requests := ["https://api.audd.io/", "https://api.audd.io/recognize"] }
      | .ok none =>
        { outcome := .ok none
          requests := ["https://api.audd.io/", "https://api.audd.io/recognize"] }
      | .ok (some r) =>
        { outcome := .ok (some (normalizeAudD js r))
          requests := ["https://api.audd.io/", "https://api.audd.io/recognize"] }

/-- The stored ACRCloud credentials `state.acr` (app.js 9-13). -/
structure AcrConfig where
  key : String
  secret : String
  host : String
  deriving DecidableEq, Repr

/-- `recognizeWithACRCloud` (app.js 185-191). -/
def recognizeWithACRCloud (acr : AcrConfig) : ProviderRun :=
  if acr.key = "" ∨ acr.secret = "" ∨ acr.host = "" then { outcome := .ok none, requests := [] }
  else { outcome := .ok none, requests := [] }

/-- A network on which every AudD request fails. -/
def netDown : String → Except String (Option AuddResult) :=
  fun _ => .error "Failed to fetch"

/-- A network on which AudD answers both requests with no match. -/
def netNoMatch : String → Except String (Option AuddResult) :=
  fun _ => .ok none

/-- A network on which AudD answers with a match that carries no score. -/
def netMatch : String → Except String (Option AuddResult) :=
  fun _ => .ok (some { title := some "Song", artist := some "Band" })

/-- A network on which AudD answers with a match whose score is the number 0. -/
def netZeroScore : String → Except String (Option AuddResult) :=
  fun _ => .ok (some { title := some "Song", artist := some "Band", score := some 0 })

/-- The normalised result of the match of `netMatch` and of `netZeroScore`. -/
def songByBand : Recognition :=
  { title := some "Song", artist := some "Band", artwork := none, previewUrl := none,
    itunesUrl := none, youtubeId := none, providerScore := none }

/-- A configuration with all three ACRCloud credentials stored. -/
def acrConfigured : AcrConfig := { key := "k", secret := "s", host := "h" }

/-! ## Recognition orchestration (app.js 193-229) -/

/-- The value of `best`: a provider's result tagged with the provider's name
(`{ provider: ..., ...result }`). -/
structure Best where
  provider : String
  result : Recognition
  deriving DecidableEq, Repr

/-- What the `try` block of `onRecordingStop` leaves behind: the value of
`best`, the providers whose call was made (in call order) and the errors passed
to `console.error`. -/
structure Selection where
  best : Option Best
  attempted : List String
  logged : List String
  deriving DecidableEq, Repr

/-- The `try`/`catch` of `onRecordingStop` (app.js 197-205), with what the two
awaited provider calls yield as inputs. `acr` is only consulted when the AudD
call did not throw: an exception leaves the block at the `await` that raised
it. -/
def tryProviders (audd acr : Outcome) : Selection :=
  match audd with
  | .error e => { best := none, attempted := ["AudD"], logged := [e] }
  | .ok a =>
    let best : Option Best := a.map (fun r => { provider := "AudD", result := r })
    match acr with
    | .error e => { best := best, attempted := ["AudD", "ACRCloud"], logged := [e] }
    | .ok b =>
      let best2 : Option Best :=
        match b, best with
        | some r, none => some { provider := "ACRCloud", result := r }
        | _, _ => best
      { best := best2, attempted := ["AudD", "ACRCloud"], logged := [] }

/-- The part of `onRecordingStop` after the provider calls (app.js 196,
207-228) applied to the selection made by `tryProviders`. `rmsSamples` is
`state.media.rmsSamples`. Returns the page and the selection. -/
def onRecordingStopWith (js : Js) (audd acr : Outcome) (rmsSamples : List ℚ) (page : Page) :
    Page × Selection :=
  let page0 := showToast .uploading page
  let sel := tryProviders audd acr
  let page1 := { page0 with logged := page0.logged ++ sel.logged }
  match sel.best with
  | none =>
    (renderTracks js []
      (windowOpen "https://www.google.com/search?q=apa+judul+lagu+ini"
        (showToast .notDetected { page1 with confVal := none })), sel)
  | some best =>
    let conf := combineConfidence rmsSamples best.result.providerScore
    let page2 := { page1 with confVal := some (mathRound (conf * 100)) }
    let items : List Item :=
      [{ title := best.result.title
         artist := best.result.artist
         image := orElse best.result.artwork
           (if truthy best.result.youtubeId then
              some ("https://i.ytimg.com/vi/" ++ (best.result.youtubeId.getD "") ++ "/hqdefault.jpg")
            else none)
         previewUrl := orNull best.result.previewUrl
         collectionViewUrl := orNull best.result.itunesUrl
         trackName := best.result.title
         artistName := best.result.artist }]
    let page3 := renderTracks js items page2
    (showToast (.found best.result.title best.result.artist (decide (conf ≥ 0.88))) page3, sel)

/-- `onRecordingStop` (app.js 193-229) with the two providers of the program:
`auddKey` is `state.auddKey`, `acr` is `state.acr`, `net` answers the AudD
requests. The requests of a provider are recorded only when it was called. -/
def onRecordingStop (js : Js) (auddKey : String) (acr : AcrConfig)
    (net : String → Except String (Option AuddResult)) (rmsSamples : List ℚ) (page : Page) :
    Page × Selection :=
  let a := recognizeWithAudD js auddKey net
  let b := recognizeWithACRCloud acr
  let requests :=
    match a.outcome with
    | .error _ => a.requests
    | .ok _ => a.requests ++ b.requests
  onRecordingStopWith js a.outcome b.outcome rmsSamples
    { page with fetched := page.fetched ++ requests }

/-! ## Recording session (app.js 77-128, 241-243) -/

/-- One microphone stream obtained from `getUserMedia` together with the
`MediaRecorder` built on it. `hasRecorder` is false when the constructor threw;
`recording` is `recorder.state === 'recording'` (the only other state the
program reaches is 'inactive'); `tracksLive` is false once the tracks were
stopped. -/
structure Capture where
  tracksLive : Bool
  hasRecorder : Bool
  recording : Bool
  deriving DecidableEq, Repr

/-- The recording state: every capture created so far (oldest first), the
captures that `state.media.recorder` and `state.media.stream` refer to (indices
into `captures`), the number of `startRecording` calls suspended at
`await getUserMedia`, the recorders whose `stop` event (handler
`onRecordingStop`) has been raised, and the toasts shown. The sampling loop
that a granted acquisition starts is modelled by `firstSample` and `sample`. -/
structure Mic where
  captures : List Capture := []
  recorder : Option Nat := none
  stream : Option Nat := none
  pending : Nat := 0
  stopEvents : List Nat := []
  toasts : List Toast := []
  deriving DecidableEq, Repr

/-- What `await navigator.mediaDevices.getUserMedia(...)` and the construction
of the `MediaRecorder` yield: the promise rejects, the stream is obtained but
`new MediaRecorder` throws, or both succeed. The statements after the
construction (app.js 84-117) are taken not to throw. -/
inductive Acquired
  | denied
  | recorderFailed
  | granted
  deriving DecidableEq, Repr

/-- `rec && rec.state === 'recording'` for `rec = state.media.recorder`. -/
def isRecording (m : Mic) : Bool :=
  match m.recorder with
  | some i => (m.captures.get? i).any (fun c => c.recording)
  | none => false

/-- `stopRecording` (app.js 121-128): `r.stop()` when the current recorder is
not inactive, which raises its `stop` event, then the tracks of the current
stream are stopped. Cancelling the animation frame, closing the audio context
and resetting the button do not change the recorded state. -/
def stopRecording (m : Mic) : Mic :=
  let m1 :=
    match m.recorder with
    | some i =>
      if isRecording m then
        { m with
          captures := m.captures.modify (fun c => { c with recording := false }) i
          stopEvents := m.stopEvents ++ [i] }
      else m
    | none => m
  match m1.stream with
  | some j => { m1 with captures := m1.captures.modify (fun c => { c with tracksLive := false }) j }
  | none => m1

/-- `startRecording` up to its `await` (app.js 78-81); `supported` is whether
`navigator.mediaDevices?.getUserMedia` exists. -/
def startRecordingBegin (supported : Bool) (m : Mic) : Mic :=
  if supported then { m with pending := m.pending + 1 }
  else { m with toasts := m.toasts ++ [Toast.micUnsupported] }

/-- `startRecording` from its `await` on (app.js 81-118), for one suspended
call. -/
def startRecordingResume (o : Acquired) (m : Mic) : Mic :=
  match m.pending with
  | 0 => m
  | k + 1 =>
    let m0 := { m with pending := k }
    match o with
    | .denied => { m0 with toasts := m0.toasts ++ [Toast.micUnavailable] }
    | .recorderFailed =>
      { m0 with
        captures := m0.captures ++ [{ tracksLive := true, hasRecorder := false, recording := false }]
        stream := some m0.captures.length
        toasts := m0.toasts ++ [Toast.micUnavailable] }
    | .granted =>
      { m0 with
        captures := m0.captures ++ [{ tracksLive := true, hasRecorder := true, recording := true }]
        stream := some m0.captures.length
        recorder := some m0.captures.length
        toasts := m0.toasts ++ [Toast.recordingStarted] }

/-- The events of the recording session: a click on `#btnMic` and the
settling of one suspended `getUserMedia` call. -/
inductive MicEvent
  | click
  | settle (o : Acquired)
  deriving DecidableEq, Repr

/-- The click handler of `#btnMic` (app.js 241-243). -/
def onMicClick (supported : Bool) (m : Mic) : Mic :=
  if isRecording m then stopRecording m else startRecordingBegin supported m

/-- One event of the recording session. -/
def micStep (supported : Bool) (m : Mic) : MicEvent → Mic
  | .click => onMicClick supported m
  | .settle o => startRecordingResume o m

/-- A sequence of events, from the left. -/
def micRun (supported : Bool) (m : Mic) (events : List MicEvent) : Mic :=
  events.foldl (micStep supported) m

/-- The number of captures whose recorder is recording. -/
def activeCaptures (m : Mic) : Nat := (m.captures.filter (fun c => c.recording)).length

/-! ### Helper lemmas -/

theorem foldl_add_eq_sum (l : List ℚ) (a : ℚ) :
    l.foldl (fun a b => a + b) a = a + l.sum := by
  induction l generalizing a with
  | nil => simp
  | cons x xs ih => simp [List.foldl_cons, ih, add_assoc]

theorem estimateSignalQuality_nonneg (s : List ℚ) : 0 ≤ estimateSignalQuality s := by
  unfold estimateSignalQuality
  split
  · exact le_refl 0
  · exact le_max_left _ _

theorem estimateSignalQuality_le_one (s : List ℚ) : estimateSignalQuality s ≤ 1 := by
  unfold estimateSignalQuality
  split
  · exact zero_le_one
  · exact max_le zero_le_one (min_le_left _ _)

theorem estimateSignalQuality_singleton (x : ℚ) :
    estimateSignalQuality [x] = max 0 (min 1 ((x - 0.02) / 0.20)) := by
  simp [estimateSignalQuality]
  norm_num

theorem foldl_sq_replicate (n b : Nat) (a : ℚ) :
    (List.replicate n b).foldl (fun sum d => sum + amplitude d * amplitude d) a
      = a + n * (amplitude b * amplitude b) := by
  induction n generalizing a with
  | zero => simp
  | succ k ih =>
    simp only [List.replicate_succ, List.foldl_cons, ih]
    push_cast
    ring

theorem clamp_mono {x y : ℚ} (h : x ≤ y) : max 0 (min 1 x) ≤ max 0 (min 1 y) :=
  max_le_max (le_refl 0) (min_le_min (le_refl 1) h)


theorem renderLoop_eq (js : Js) (items : List Item) (p : Page) :
    items.foldl (fun p it => { p with results := p.results ++ [card js it] }) p
      = { p with results := p.results ++ items.map (card js) } := by
  induction items generalizing p with
  | nil => simp
  | cons it its ih => simp [List.foldl_cons, ih]

theorem renderTracks_cons (js : Js) (it : Item) (its : List Item) (p : Page) :
    renderTracks js (it :: its) p
      = { p with results := (it :: its).map (card js), emptyShown := false } := by
  simp [renderTracks, renderLoop_eq]

theorem renderTracks_nil (js : Js) (p : Page) :
    renderTracks js [] p = { p with results := [], emptyShown := true } := by
  simp [renderTracks]

theorem recognizeWithACRCloud_eq (acr : AcrConfig) :
    recognizeWithACRCloud acr = { outcome := .ok none, requests := [] } := by
  unfold recognizeWithACRCloud
  split <;> rfl

/-- The three cases of the score expression: a missing score and the score 0
both give no provider score, any other score `s` gives `s / 100`. -/
theorem providerScoreOf_cases :
    providerScoreOf none = none ∧ providerScoreOf (some 0) = none ∧
    (∀ s : ℚ, s ≠ 0 → providerScoreOf (some s) = some (s / 100)) := by
  refine ⟨rfl, by simp [providerScoreOf], ?_⟩
  intro s hs
  simp [providerScoreOf, hs]

/-! ## Signal quality and confidence: the claims -/

/-- C2: with no samples the quality is exactly 0; with at least one sample it is
the arithmetic mean of all samples, remapped from the band [0.02, 0.22] to
[0, 1] and clamped, `max 0 (min 1 ((mean - 0.02) / 0.20))`; in every case the
result is a number in [0, 1]. -/
theorem estimateSignalQuality_spec :
    estimateSignalQuality [] = 0 ∧
    (∀ (x : ℚ) (xs : List ℚ),
      estimateSignalQuality (x :: xs)
        = max 0 (min 1 (((x :: xs).sum / ((x :: xs).length : ℚ) - 0.02) / 0.20))) ∧
    (∀ s : List ℚ, 0 ≤ estimateSignalQuality s ∧ estimateSignalQuality s ≤ 1) := by
  refine ⟨by simp [estimateSignalQuality], ?_, fun s =>
    ⟨estimateSignalQuality_nonneg s, estimateSignalQuality_le_one s⟩⟩
  intro x xs
  have h : (x :: xs).length ≠ 0 := by simp
  unfold estimateSignalQuality
  rw [if_neg h, foldl_add_eq_sum]
  norm_num

/-- C1: for every sample sequence with quality `q` and every provider score
`p`, `combineConfidence` returns `clamp (0.6*q + 0.2)` when the score is absent
and `clamp (0.7*p + 0.3*q)` when it is `p`; the result always lies in [0, 1],
is 1 for `p = 1, q = 1` and 0 for `p = 0, q = 0`. -/
theorem combineConfidence_spec (rmsSamples : List ℚ) (p : ℚ) :
    combineConfidence rmsSamples none
      = max 0 (min 1 (0.6 * estimateSignalQuality rmsSamples + 0.2)) ∧
    combineConfidence rmsSamples (some p)
      = max 0 (min 1 (0.7 * p + 0.3 * estimateSignalQuality rmsSamples)) ∧
    (∀ ps : Option ℚ, 0 ≤ combineConfidence rmsSamples ps ∧ combineConfidence rmsSamples ps ≤ 1) ∧
    (estimateSignalQuality rmsSamples = 1 → combineConfidence rmsSamples (some 1) = 1) ∧
    (estimateSignalQuality rmsSamples = 0 → combineConfidence rmsSamples (some 0) = 0) := by
  refine ⟨rfl, rfl, fun ps => ⟨le_max_left _ _, max_le zero_le_one (min_le_left _ _)⟩, ?_, ?_⟩
  · intro h
    simp only [combineConfidence, h]
    norm_num
  · intro h
    simp only [combineConfidence, h]
    norm_num

/-- Witness of C1 at the sample sequences `[1/4]` (quality 1) and `[]`
(quality 0). -/
theorem combineConfidence_spec_witness :
    estimateSignalQuality [1 / 4] = 1 ∧ combineConfidence [1 / 4] (some 1) = 1 ∧
    estimateSignalQuality [] = 0 ∧ combineConfidence [] (some 0) = 0 :=
  have h1 : estimateSignalQuality [1 / 4] = 1 := by
    rw [estimateSignalQuality_singleton]; norm_num
  have h0 : estimateSignalQuality [] = 0 := by simp [estimateSignalQuality]
  ⟨h1, (combineConfidence_spec [1 / 4] 0).2.2.2.1 h1, h0, (combineConfidence_spec [] 0).2.2.2.2 h0⟩

/-- C3: with the provider score absent the confidence is monotonically
non-decreasing in the signal quality, it is 0.2 at quality 0 and 0.8 at quality
1, and every quality in [0, 1] is the quality of some sample sequence. -/
theorem combineConfidence_absent_mono :
    (∀ s1 s2 : List ℚ, estimateSignalQuality s1 ≤ estimateSignalQuality s2 →
      combineConfidence s1 none ≤ combineConfidence s2 none) ∧
    (∀ s : List ℚ, estimateSignalQuality s = 0 → combineConfidence s none = 0.2) ∧
    (∀ s : List ℚ, estimateSignalQuality s = 1 → combineConfidence s none = 0.8) ∧
    (∀ q : ℚ, 0 ≤ q → q ≤ 1 → ∃ s : List ℚ, estimateSignalQuality s = q) := by
  refine ⟨?_, ?_, ?_, ?_⟩
  · intro s1 s2 h
    simp only [combineConfidence]
    apply clamp_mono
    linarith
  · intro s h
    simp only [combineConfidence, h]
    norm_num
  · intro s h
    simp only [combineConfidence, h]
    norm_num
  · intro q h0 h1
    refine ⟨[0.02 + 0.20 * q], ?_⟩
    rw [estimateSignalQuality_singleton]
    have e : (0.02 + 0.20 * q - 0.02) / 0.20 = q := by norm_num
    rw [e, min_eq_right h1, max_eq_right h0]

/-- Witness of C3 at the sample sequences `[]` (quality 0) and `[1/4]`
(quality 1). -/
theorem combineConfidence_absent_mono_witness :
    estimateSignalQuality [] ≤ estimateSignalQuality [1 / 4] ∧
    combineConfidence [] none ≤ combineConfidence [1 / 4] none ∧
    combineConfidence [] none = 0.2 ∧ combineConfidence [1 / 4] none = 0.8 ∧
    (∃ s : List ℚ, estimateSignalQuality s = 1 / 2) :=
  have h1 : estimateSignalQuality [1 / 4] = 1 := by
    rw [estimateSignalQuality_singleton]; norm_num
  have h0 : estimateSignalQuality [] = 0 := by simp [estimateSignalQuality]
  have hle : estimateSignalQuality [] ≤ estimateSignalQuality [1 / 4] := by
    rw [h0, h1]; exact zero_le_one
  ⟨hle, combineConfidence_absent_mono.1 [] [1 / 4] hle,
    combineConfidence_absent_mono.2.1 [] h0,
    combineConfidence_absent_mono.2.2.1 [1 / 4] h1,
    combineConfidence_absent_mono.2.2.2 (1 / 2) (by norm_num) (by norm_num)⟩

/-- C4: for a frame of `n > 0` bytes all equal to `b`, with amplitude
`v = (b - 128)/128`, the first sampling step after the reset leaves exactly the
one sample `|v|`, and `estimateSignalQuality` of the recorded samples is then
`max 0 (min 1 ((|v| - 0.02) / 0.20))`. `Math.sqrt` is any function that
returns `|x|` on `x*x`. -/
theorem firstSample_constant (sqrt : ℚ → ℚ) (hsqrt : ∀ x : ℚ, sqrt (x * x) = |x|)
    (n b : Nat) (hn : 0 < n) :
    (firstSample sqrt (List.replicate n b)).1 = [|((b : ℚ) - 128) / 128|] ∧
    estimateSignalQuality (firstSample sqrt (List.replicate n b)).1
      = max 0 (min 1 ((|((b : ℚ) - 128) / 128| - 0.02) / 0.20)) := by
  have hn0 : (n : ℚ) ≠ 0 := by exact_mod_cast (Nat.pos_iff_ne_zero.mp hn)
  have hs : (firstSample sqrt (List.replicate n b)).1 = [|((b : ℚ) - 128) / 128|] := by
    simp only [firstSample, sample, foldl_sq_replicate, List.length_replicate, List.nil_append,
      zero_add]
    rw [mul_div_cancel_left₀ _ hn0, hsqrt]
    rfl
  rw [hs]
  exact ⟨rfl, estimateSignalQuality_singleton _⟩

/-- Witness of C4: a frame of 2048 bytes all equal to 143, with `Rat.sqrt` for
`Math.sqrt`: the one sample is 15/128 and the quality is 311/640. -/
theorem firstSample_constant_witness :
    (∀ x : ℚ, Rat.sqrt (x * x) = |x|) ∧ 0 < 2048 ∧
    (firstSample Rat.sqrt (List.replicate 2048 143)).1 = [15 / 128] ∧
    estimateSignalQuality (firstSample Rat.sqrt (List.replicate 2048 143)).1 = 311 / 640 :=
  have h := firstSample_constant Rat.sqrt Rat.sqrt_eq 2048 143 (by decide)
  have hv : |(((143 : ℕ) : ℚ) - 128) / 128| = 15 / 128 := by
    rw [abs_of_nonneg] <;> norm_num
  ⟨Rat.sqrt_eq, by decide, by rw [h.1, hv], by
    rw [h.2, hv]
    norm_num⟩

/-! ## Text search: the claims -/

/-- C9: for a non-empty term and a successful catalog reply, an empty item list
opens the fallback web search exactly once, at the Google search address
followed by the URL-encoded term, and leaves the result list empty; a list of
`n >= 1` items renders exactly `n` cards, the card of each item in reply order,
and opens nothing. -/
theorem searchText_render (js : Js) (term : String) (hterm : term ≠ "") (page : Page) :
    ((searchText js term (.data (some [])) page).opened
        = page.opened ++ ["https://www.google.com/search?q=" ++ js.encodeURIComponent term] ∧
      (searchText js term (.data (some [])) page).results = []) ∧
    (∀ (it : Item) (its : List Item),
      (searchText js term (.data (some (it :: its))) page).results = (it :: its).map (card js) ∧
      (searchText js term (.data (some (it :: its))) page).results.length = (it :: its).length ∧
      (searchText js term (.data (some (it :: its))) page).opened = page.opened) := by
  refine ⟨?_, ?_⟩
  · simp [searchText, hterm, renderTracks_nil, showToast, windowOpen, googleSearchURL]
  · intro it its
    simp [searchText, hterm, renderTracks_cons, showToast]

/-- Witness of C9 on an empty page, for the term bohemian rhapsody: with no
item the one opened address carries the term with its space encoded; with one
item one card is rendered and nothing is opened. -/
theorem searchText_render_witness :
    "bohemian rhapsody" ≠ "" ∧
    (searchText jsAscii "bohemian rhapsody" (.data (some [])) {}).opened
      = ["https://www.google.com/search?q=bohemian%20rhapsody"] ∧
    (searchText jsAscii "bohemian rhapsody" (.data (some [])) {}).results = [] ∧
    (searchText jsAscii "bohemian rhapsody"
      (.data (some [{ trackName := some "Bohemian Rhapsody", artistName := some "Queen" }]))
      {}).results.length = 1 ∧
    (searchText jsAscii "bohemian rhapsody"
      (.data (some [{ trackName := some "Bohemian Rhapsody", artistName := some "Queen" }]))
      {}).opened = [] :=
  have h1 : "bohemian rhapsody" ≠ "" := by decide
  ⟨h1, (searchText_render jsAscii "bohemian rhapsody" h1 {}).1.1,
    (searchText_render jsAscii "bohemian rhapsody" h1 {}).1.2,
    ((searchText_render jsAscii "bohemian rhapsody" h1 {}).2 _ []).2.1,
    ((searchText_render jsAscii "bohemian rhapsody" h1 {}).2 _ []).2.2⟩

/-! ## Recognition: the claims -/

/-- C5: when neither provider call fails, both providers are called in the
order AudD, ACRCloud; a non-null AudD result is selected whatever ACRCloud
yields; a null AudD result falls through to a non-null ACRCloud result; and when
both yield null nothing is selected and the no-match path is taken (dash in
`#confVal`, one fallback search opened, empty result list). -/
theorem onRecordingStop_priority (js : Js) (rmsSamples : List ℚ) (page : Page) :
    (∀ a b : Option Recognition,
      (onRecordingStopWith js (.ok a) (.ok b) rmsSamples page).2.attempted
        = ["AudD", "ACRCloud"]) ∧
    (∀ (r : Recognition) (b : Option Recognition),
      (onRecordingStopWith js (.ok (some r)) (.ok b) rmsSamples page).2.best
        = some { provider := "AudD", result := r }) ∧
    (∀ r : Recognition,
      (onRecordingStopWith js (.ok none) (.ok (some r)) rmsSamples page).2.best
        = some { provider := "ACRCloud", result := r }) ∧
    ((onRecordingStopWith js (.ok none) (.ok none) rmsSamples page).2.best = none ∧
      (onRecordingStopWith js (.ok none) (.ok none) rmsSamples page).1.confVal = none ∧
      (onRecordingStopWith js (.ok none) (.ok none) rmsSamples page).1.opened
        = page.opened ++ ["https://www.google.com/search?q=apa+judul+lagu+ini"] ∧
      (onRecordingStopWith js (.ok none) (.ok none) rmsSamples page).1.results = []) := by
  refine ⟨?_, ?_, ?_, ?_⟩
  · intro a b
    cases a <;> cases b <;> simp [onRecordingStopWith, tryProviders]
  · intro r b
    cases b <;> simp [onRecordingStopWith, tryProviders]
  · intro r
    simp [onRecordingStopWith, tryProviders]
  · simp [onRecordingStopWith, tryProviders, renderTracks_nil, showToast, windowOpen]

/-- What `onRecordingStop` does when the AudD call fails with an error,
whatever ACRCloud would yield: it returns normally, the error is logged,
ACRCloud is not called, nothing is selected and the no-match path is taken
(dash in `#confVal`, one fallback search opened, empty result list). -/
theorem onRecordingStop_audd_error (js : Js) (e : String) (rmsSamples : List ℚ) (page : Page) :
    (∀ acr : Outcome,
      (onRecordingStopWith js (.error e) acr rmsSamples page).2
        = { best := none, attempted := ["AudD"], logged := [e] } ∧
      (onRecordingStopWith js (.error e) acr rmsSamples page).1.logged = page.logged ++ [e] ∧
      (onRecordingStopWith js (.error e) acr rmsSamples page).1.confVal = none ∧
      (onRecordingStopWith js (.error e) acr rmsSamples page).1.opened
        = page.opened ++ ["https://www.google.com/search?q=apa+judul+lagu+ini"] ∧
      (onRecordingStopWith js (.error e) acr rmsSamples page).1.results = []) ∧
    (∀ (auddKey : String) (cfg : AcrConfig) (net : String → Except String (Option AuddResult)),
      (recognizeWithAudD js auddKey net).outcome = .error e →
      (onRecordingStop js auddKey cfg net rmsSamples page).2
        = { best := none, attempted := ["AudD"], logged := [e] } ∧
      (onRecordingStop js auddKey cfg net rmsSamples page).1.opened
        = page.opened ++ ["https://www.google.com/search?q=apa+judul+lagu+ini"] ∧
      (onRecordingStop js auddKey cfg net rmsSamples page).1.results = []) := by
  refine ⟨?_, ?_⟩
  · intro acr
    simp [onRecordingStopWith, tryProviders, renderTracks_nil, showToast, windowOpen]
  · intro auddKey cfg net h
    simp [onRecordingStop, h, onRecordingStopWith, tryProviders, renderTracks_nil, showToast,
      windowOpen]

/-- C6 at a recording made with an AudD key set, all three ACRCloud
credentials stored and every AudD request failing: `recognizeWithAudD` fails,
the error is caught and logged, and `recognizeWithACRCloud` is not called: the
only provider attempted is AudD. When AudD instead answers with no match,
both providers are attempted. -/
theorem audd_failure_halts_sequence :
    (recognizeWithAudD jsAscii "token" netDown).outcome = .error "Failed to fetch" ∧
    (onRecordingStop jsAscii "token" acrConfigured netDown [] {}).2
      = { best := none, attempted := ["AudD"], logged := ["Failed to fetch"] } ∧
    (recognizeWithAudD jsAscii "token" netNoMatch).outcome = .ok none ∧
    (onRecordingStop jsAscii "token" acrConfigured netNoMatch [] {}).2
      = { best := none, attempted := ["AudD", "ACRCloud"], logged := [] } := by
  refine ⟨?_, ?_, ?_, ?_⟩
  · simp [recognizeWithAudD, netDown]
  · simp [onRecordingStop, onRecordingStopWith, recognizeWithAudD, tryProviders, netDown]
  · simp [recognizeWithAudD, netNoMatch]
  · simp [onRecordingStop, onRecordingStopWith, recognizeWithAudD, recognizeWithACRCloud,
      tryProviders, netNoMatch]

/-- C7 at a reply whose score is the number 0: the normalised result has no
provider score, and `combineConfidence` then returns 0.2 where a present score
of 0 gives 0. -/
theorem audd_zero_score_absent :
    (recognizeWithAudD jsAscii "token" netZeroScore).outcome = .ok (some songByBand) ∧
    songByBand.providerScore = none ∧
    combineConfidence [] none = 0.2 ∧ combineConfidence [] (some 0) = 0 := by
  refine ⟨?_, rfl, ?_, ?_⟩
  · simp [recognizeWithAudD, netZeroScore, songByBand, normalizeAudD, providerScoreOf, orNull,
      orElse, truthy]
  · simp [combineConfidence, estimateSignalQuality]; norm_num
  · simp [combineConfidence, estimateSignalQuality]

/-- C10: for every stored credential configuration `recognizeWithACRCloud`
returns null and issues no request, and whatever the AudD key, the network and
the recorded samples are, a result selected by `onRecordingStop` is never
ACRCloud's. -/
theorem recognizeWithACRCloud_unavailable (acr : AcrConfig) :
    (recognizeWithACRCloud acr).outcome = .ok none ∧
    (recognizeWithACRCloud acr).requests = [] ∧
    (∀ (js : Js) (auddKey : String) (net : String → Except String (Option AuddResult))
        (rmsSamples : List ℚ) (page : Page) (b : Best),
      (onRecordingStop js auddKey acr net rmsSamples page).2.best = some b →
        b.provider = "AudD") := by
  refine ⟨by rw [recognizeWithACRCloud_eq], by rw [recognizeWithACRCloud_eq], ?_⟩
  intro js auddKey net rmsSamples page b
  simp only [onRecordingStop, recognizeWithACRCloud_eq]
  cases h : (recognizeWithAudD js auddKey net).outcome with
  | error e => simp [onRecordingStopWith, tryProviders]
  | ok a =>
    cases a with
    | none => simp [onRecordingStopWith, tryProviders]
    | some r =>
      simp only [onRecordingStopWith, tryProviders, Option.map]
      intro hb
      simp at hb
      rw [← hb]


/-- Witness of C10: with an AudD key and an AudD match, and all three ACRCloud
credentials stored, the selected result is AudD's. -/
theorem recognizeWithACRCloud_unavailable_witness :
    (onRecordingStop jsAscii "token" acrConfigured netMatch [] {}).2.best
      = some { provider := "AudD", result := songByBand } ∧
    (Best.mk "AudD" songByBand).provider = "AudD" :=
  have h : (onRecordingStop jsAscii "token" acrConfigured netMatch [] {}).2.best
      = some { provider := "AudD", result := songByBand } := by
    simp [onRecordingStop, onRecordingStopWith, recognizeWithAudD, recognizeWithACRCloud,
      tryProviders, netMatch, songByBand, normalizeAudD, providerScoreOf, orNull, orElse, truthy]
  ⟨h, (recognizeWithACRCloud_unavailable acrConfigured).2.2 jsAscii "token" netMatch [] {} _ h⟩

/-! ## Recording session: the claims -/

/-- The guarded branch of the click handler: while the current recorder is
recording, a click is `stopRecording`; afterwards the current recorder is not
recording, no microphone request was started and no capture was created. -/
theorem click_while_recording (supported : Bool) (m : Mic) (h : isRecording m = true) :
    onMicClick supported m = stopRecording m ∧
    isRecording (stopRecording m) = false ∧
    (stopRecording m).pending = m.pending ∧
    (stopRecording m).captures.length = m.captures.length := by
  refine ⟨by simp [onMicClick, h], ?_, ?_, ?_⟩
  · unfold stopRecording
    cases hr : m.recorder with
    | none => simp [isRecording, hr] at h
    | some i =>
      simp only [h, if_true]
      cases hs : m.stream with
      | none =>
        simp only [isRecording, List.get?_eq_getElem?, List.getElem?_modify_eq]
        cases m.captures[i]? <;> simp
      | some j =>
        simp only [isRecording, List.get?_eq_getElem?, List.getElem?_modify]
        cases m.captures[i]? <;> simp
        split <;> simp
  · unfold stopRecording
    cases hr : m.recorder with
    | none => simp [isRecording, hr] at h
    | some i =>
      simp only [h, if_true]
      cases hs : m.stream <;> simp
  · unfold stopRecording
    cases hr : m.recorder with
    | none => simp [isRecording, hr] at h
    | some i =>
      simp only [h, if_true]
      cases hs : m.stream <;> simp

/-- C8 at two clicks made before either microphone request has settled, both
requests then being granted: two recorders are recording at once; a third click
stops only the newer one, and a fourth click starts a new request while the
first recorder is still recording and its stream is still live. When the
request settles before the second click, that click stops the one capture. -/
theorem double_click_two_captures :
    activeCaptures (micRun true {}
      [.click, .click, .settle .granted, .settle .granted]) = 2 ∧
    (micRun true {} [.click, .click, .settle .granted, .settle .granted]).captures
      = [{ tracksLive := true, hasRecorder := true, recording := true },
         { tracksLive := true, hasRecorder := true, recording := true }] ∧
    (micRun true {} [.click, .click, .settle .granted, .settle .granted, .click]).captures
      = [{ tracksLive := true, hasRecorder := true, recording := true },
         { tracksLive := false, hasRecorder := true, recording := false }] ∧
    (micRun true {}
      [.click, .click, .settle .granted, .settle .granted, .click, .click]).pending = 1 ∧
    activeCaptures (micRun true {} [.click, .settle .granted]) = 1 ∧
    activeCaptures (micRun true {} [.click, .settle .granted, .click]) = 0 := by
  decide

end SearchMusic
